import Mathlib

/-!
Shallow embedding of the trip/traveler lifecycle engine of the NATPAC travel
data collection app.

Sources embedded:
- `src/app/api/trips/route.ts` (the HTTP route layer: in-memory `trips` array
  plus `tripIdCounter`, handlers `GET`/`POST`/`PUT`/`DELETE`/`OPTIONS`);
- `src/hooks/useTrips.ts` (the client hook layer: `generateTripNumber`,
  `createTrip`, `updateTrip`, `completeTrip`, `cancelTrip`, `deleteTrip`,
  `getTripStats`);
- the travelers route handlers (`POST`/`PUT` with the case-insensitive
  name-uniqueness check);
- `lib/storage.ts` (the `storageService` success conditions the hooks
  branch on: `addTrip` appends and saves, `updateTrip` fails exactly on an
  unknown id, `deleteTrip` filters and reports the save result).

Times are modelled as `Int` milliseconds since the epoch (JS `Date.getTime()`).
JavaScript `Math.round` is round-half-toward-positive-infinity; it is modelled
by `jsRound` below.  Optional record fields and optional keys of the free-form
`updates` merge objects are modelled with `Option`: `some v` means the key is
present with value `v`, `none` means the key is absent.
-/

namespace Natpac

/-- JavaScript `Math.round`: rounds half toward positive infinity. -/
def jsRound (q : ℚ) : ℤ := ⌊q + 1/2⌋

/-- `Location` from `src/lib/types.ts` (coordinates are opaque to the
lifecycle engine; no claim computes with them). -/
structure Location where
  latitude : Int
  longitude : Int
  address : Option String := none
  timestamp : Int := 0
deriving Repr, DecidableEq

/-- `TripStatus` from `src/lib/types.ts`. -/
inductive TripStatus where
  | planned | active | completed | cancelled
deriving Repr, DecidableEq

/-- `Trip` from `src/lib/types.ts` (fields the lifecycle engine reads or
writes; `waypoints`/`isPartOfChain`/`chainId`/`syncedAt` are never touched by
the embedded code and are omitted). -/
structure Trip where
  id : String
  tripNumber : Nat
  status : TripStatus
  origin : Location
  destination : Option Location := none
  startTime : Int
  endTime : Option Int := none
  duration : Option Int := none
  mode : String
  purpose : String
  purposeDetail : Option String := none
  primaryTraveler : String
  accompanyingTravelers : List String
  totalTravelers : Nat
  satisfactionRating : Option Nat := none
  notes : Option String := none
  createdAt : Int
  updatedAt : Int
deriving Repr, DecidableEq

/-- The free-form `updates` object accepted by the PUT route handler and by
`updateTrip` in the hook (`{...trip, ...updates}` shallow merge).  A key that
is present in the object is `some v`; an absent key is `none`. -/
structure TripUpdates where
  status : Option TripStatus := none
  destination : Option Location := none
  endTime : Option Int := none
  duration : Option Int := none
  satisfactionRating : Option Nat := none
  accompanyingTravelers : Option (List String) := none
  totalTravelers : Option Nat := none
  startTime : Option Int := none
  mode : Option String := none
  purpose : Option String := none
  purposeDetail : Option String := none
  notes : Option String := none
deriving Repr, DecidableEq

/-- The JS shallow merge `{...trip, ...updates, updatedAt: new Date()}` used by
both the PUT route handler (route.ts line 137) and the hook's `updateTrip`
(useTrips.ts line 116). -/
def mergeTrip (t : Trip) (u : TripUpdates) (now : Int) : Trip :=
  { t with
    status := u.status.getD t.status
    destination := match u.destination with | some d => some d | none => t.destination
    endTime := match u.endTime with | some e => some e | none => t.endTime
    duration := match u.duration with | some d => some d | none => t.duration
    satisfactionRating :=
      match u.satisfactionRating with | some r => some r | none => t.satisfactionRating
    accompanyingTravelers := u.accompanyingTravelers.getD t.accompanyingTravelers
    totalTravelers := u.totalTravelers.getD t.totalTravelers
    startTime := u.startTime.getD t.startTime
    mode := u.mode.getD t.mode
    purpose := u.purpose.getD t.purpose
    purposeDetail := match u.purposeDetail with | some p => some p | none => t.purposeDetail
    notes := match u.notes with | some nn => some nn | none => t.notes
    updatedAt := now }

/-- JS truthiness of `updates.duration` negated: `!updates.duration` is true
when the key is absent or the value is `0` (route.ts line 144). -/
def durationFalsy (u : TripUpdates) : Bool :=
  match u.duration with
  | none => true
  | some d => d == 0

/-- `new Date(updates.endTime || new Date())` (route.ts line 146): the merge
uses `updates.endTime` when present and truthy (epoch `0` is falsy), else the
current time. -/
def endTimeOrNow (u : TripUpdates) (now : Int) : Int :=
  match u.endTime with
  | some e => if e == 0 then now else e
  | none => now

/-- Replace the first element satisfying `p` (JS `arr[arr.findIndex(p)] = v`). -/
def setFirst (p : α → Bool) (f : α → α) : List α → List α
  | [] => []
  | x :: xs => if p x then f x :: xs else x :: setFirst p f xs

/-- Remove the first element satisfying `p` (JS `arr.splice(arr.findIndex(p), 1)`). -/
def removeFirst (p : α → Bool) : List α → List α
  | [] => []
  | x :: xs => if p x then xs else x :: removeFirst p xs

/-! ## The route layer (`src/app/api/trips/route.ts`)

Module state: `let trips: Trip[] = []` and `let tripIdCounter = 1`.
The `assigned` field is ghost instrumentation recording, in order, the
`tripNumber` handed out by each successful `POST`; the handlers never read it. -/

structure RouteState where
  trips : List Trip
  tripIdCounter : Nat
  assigned : List Nat := []
deriving Repr, DecidableEq

/-- Initial module state of route.ts (lines 6–7). -/
def initRoute : RouteState := { trips := [], tripIdCounter := 1 }

/-- Outcome of a route handler call, tagged by HTTP status. -/
inductive RouteResult where
  | created (t : Trip)                 -- 201
  | ok (t : Trip)                      -- 200
  | conflict (msg : String)            -- 400, active trip already exists
  | validationErr (msg : String)       -- 400, missing fields
  | notFound                           -- 404
deriving Repr, DecidableEq

/-- Request body of `POST /api/trips` (route.ts line 50).  `origin` is `none`
when the key is missing from the JSON body. -/
structure CreateBody where
  origin : Option Location
  mode : String
  purpose : String
  purposeDetail : Option String := none
  accompanyingTravelers : Option (List String) := none
  notes : Option String := none
deriving Repr, DecidableEq

/-- Predicate of route.ts line 61: an active trip of the fixed owner. -/
def isOwnedActive (t : Trip) : Bool :=
  t.primaryTraveler == "current_user" && t.status == TripStatus.active

/-- `POST /api/trips` (route.ts lines 47–112).  `now` is `new Date()` in
milliseconds and `freshId` the generated `trip_..._...` id. -/
def postTrip (s : RouteState) (b : CreateBody) (now : Int) (freshId : String) :
    RouteState × RouteResult :=
  match b.origin with
  | none => (s, .validationErr "Missing required fields: origin, mode, purpose")
  | some o =>
    if b.mode = "" ∨ b.purpose = "" then
      (s, .validationErr "Missing required fields: origin, mode, purpose")
    else if s.trips.any isOwnedActive then
      (s, .conflict "Cannot create new trip: active trip already exists")
    else
      let newTrip : Trip :=
        { id := freshId
          tripNumber := s.tripIdCounter
          status := .active
          origin := o
          startTime := now
          mode := b.mode
          purpose := b.purpose
          purposeDetail := b.purposeDetail
          primaryTraveler := "current_user"
          accompanyingTravelers := b.accompanyingTravelers.getD []
          totalTravelers := 1 + (b.accompanyingTravelers.map List.length).getD 0
          notes := b.notes
          createdAt := now
          updatedAt := now }
      ({ trips := s.trips ++ [newTrip]
         tripIdCounter := s.tripIdCounter + 1
         assigned := s.assigned ++ [s.tripIdCounter] },
       .created newTrip)

/-- Effect of the PUT handler on the addressed record (route.ts lines
136–149): shallow merge, then the duration rule, gated on the *payload*
containing `status: 'completed'`, a truthy `destination`, and no truthy
`duration`; the computed duration reads the merged record's `startTime`. -/
def applyPut (t : Trip) (u : TripUpdates) (now : Int) : Trip :=
  let merged := mergeTrip t u now
  if u.status == some TripStatus.completed
      && u.destination.isSome && durationFalsy u then
    { merged with
      duration :=
        some (jsRound (((endTimeOrNow u now - merged.startTime : Int) : ℚ) / 60000)) }
  else merged

/-- `PUT /api/trips` (route.ts lines 114–165). -/
def putTrip (s : RouteState) (tripId : String) (u : TripUpdates) (now : Int) :
    RouteState × RouteResult :=
  if tripId = "" then (s, .validationErr "Missing tripId")
  else
    match s.trips.find? (fun t => t.id == tripId) with
    | none => (s, .notFound)
    | some t =>
      let final := applyPut t u now
      ({ s with trips := setFirst (fun t => t.id == tripId) (fun _ => final) s.trips },
       .ok final)

/-- `DELETE /api/trips?tripId=...` (route.ts lines 167–205). -/
def deleteTrip (s : RouteState) (tripId : String) : RouteState × RouteResult :=
  if tripId = "" then (s, .validationErr "Missing tripId parameter")
  else
    match s.trips.find? (fun t => t.id == tripId) with
    | none => (s, .notFound)
    | some t =>
      ({ s with trips := removeFirst (fun t => t.id == tripId) s.trips }, .ok t)

/-- One mutating call against the trips route. -/
inductive RouteOp where
  | post (b : CreateBody) (now : Int) (freshId : String)
  | put (tripId : String) (u : TripUpdates) (now : Int)
  | del (tripId : String)

/-- State after one route call. -/
def routeStep (s : RouteState) : RouteOp → RouteState
  | .post b now fid => (postTrip s b now fid).1
  | .put tid u now => (putTrip s tid u now).1
  | .del tid => (deleteTrip s tid).1

/-- State after a sequence of route calls. -/
def routeRun (s : RouteState) (ops : List RouteOp) : RouteState :=
  ops.foldl routeStep s

/-- `avgDuration` of the stats endpoint (route.ts lines 222–227):
`Math.round(sum of truthy durations / Math.max(count of truthy durations, 1))`. -/
def routeAvgDuration (trips : List Trip) : Int :=
  let withDur := trips.filter (fun t => !(t.duration.getD 0 == 0))
  jsRound (((withDur.foldl (fun sum t => sum + t.duration.getD 0) 0 : ℤ) : ℚ)
    / (max withDur.length 1 : ℚ))

/-! ## The hook layer (`src/hooks/useTrips.ts`)

Hook state: the `trips` array and the `activeTrip` pointer kept with
`useState`.  The `assigned` field is ghost instrumentation recording the
`tripNumber` produced by each successful `createTrip`. -/

structure HookState where
  trips : List Trip
  activeTrip : Option Trip := none
  assigned : List Nat := []
deriving Repr, DecidableEq

/-- Success condition of `storageService.updateTrip` (`lib/storage.ts`
lines 112–120): `findIndex` misses and it returns false, otherwise the
merged collection is saved and the call returns true.  The localStorage
writes themselves (`setItem`) are the environment boundary and are modelled
as available, so `saveTrips` succeeds. -/
def storageUpdateTripOk (trips : List Trip) (tripId : String) : Bool :=
  (trips.findIdx? (fun t => t.id == tripId)).isSome

/-- `generateTripNumber` (useTrips.ts lines 48–51):
`existingNumbers.length > 0 ? Math.max(...existingNumbers) + 1 : 1`. -/
def generateTripNumber (trips : List Trip) : Nat :=
  if trips.isEmpty then 1
  else (trips.map Trip.tripNumber).foldl Nat.max 0 + 1

/-- Input of the hook's `createTrip`: `NewTripForm & { origin: Location }`
(`NewTripForm` in types.ts requires `accompanyingTravelers: string[]`). -/
structure HookTripData where
  origin : Location
  mode : String
  purpose : String
  purposeDetail : Option String := none
  accompanyingTravelers : List String
  notes : Option String := none
deriving Repr, DecidableEq

/-- `createTrip` (useTrips.ts lines 54–102); returns the new trip id, or
`none` when an active trip already exists.  `storageService.addTrip`
(`lib/storage.ts` lines 106–110) appends and reports the save result, which
succeeds with storage available, so the success branch is taken. -/
def createTripH (s : HookState) (d : HookTripData) (now : Int) (freshId : String) :
    HookState × Option String :=
  if s.activeTrip.isSome then (s, none)
  else
    let newTrip : Trip :=
      { id := freshId
        tripNumber := generateTripNumber s.trips
        status := .active
        origin := d.origin
        startTime := now
        mode := d.mode
        purpose := d.purpose
        purposeDetail := d.purposeDetail
        primaryTraveler := "current_user"
        accompanyingTravelers := d.accompanyingTravelers
        totalTravelers := 1 + d.accompanyingTravelers.length
        notes := d.notes
        createdAt := now
        updatedAt := now }
    ({ trips := s.trips ++ [newTrip]
       activeTrip := some newTrip
       assigned := s.assigned ++ [newTrip.tripNumber] },
     some freshId)

/-- `updateTrip` (useTrips.ts lines 105–137): on storage success, map the
merge over the trips array and over `activeTrip` when it is the target. -/
def updateTripH (s : HookState) (tripId : String) (u : TripUpdates) (now : Int) :
    HookState × Bool :=
  if storageUpdateTripOk s.trips tripId then
    ({ s with
       trips := s.trips.map (fun t => if t.id == tripId then mergeTrip t u now else t)
       activeTrip :=
         match s.activeTrip with
         | some a => if a.id == tripId then some (mergeTrip a u now) else some a
         | none => none },
     true)
  else (s, false)

/-- The composite update object built by `completeTrip`
(useTrips.ts lines 147–156). -/
def completeUpdates (t : Trip) (destination : Location) (rating : Option Nat)
    (now : Int) : TripUpdates :=
  { status := some .completed
    destination := some destination
    endTime := some now
    duration := some (jsRound (((now - t.startTime : Int) : ℚ) / 60000))
    satisfactionRating := rating }

/-- `completeTrip` (useTrips.ts lines 140–165). -/
def completeTripH (s : HookState) (tripId : String) (destination : Location)
    (rating : Option Nat) (now : Int) : HookState × Bool :=
  match s.trips.find? (fun t => t.id == tripId) with
  | none => (s, false)
  | some t =>
    let r := updateTripH s tripId (completeUpdates t destination rating now) now
    if r.2 then
      match s.activeTrip with
      | some a => if a.id == tripId then ({ r.1 with activeTrip := none }, true) else r
      | none => r
    else r

/-- `cancelTrip` (useTrips.ts lines 168–181). -/
def cancelTripH (s : HookState) (tripId : String) (now : Int) : HookState × Bool :=
  let r := updateTripH s tripId { status := some .cancelled, endTime := some now } now
  if r.2 then
    match s.activeTrip with
    | some a => if a.id == tripId then ({ r.1 with activeTrip := none }, true) else r
    | none => r
  else r

/-- `deleteTrip` (useTrips.ts lines 184–209).  `storageService.deleteTrip`
(`lib/storage.ts` lines 122–126) filters the stored collection and returns
the `saveTrips` result, which is true whether or not the id was present, so
the hook delete always succeeds and always applies the filter. -/
def deleteTripH (s : HookState) (tripId : String) : HookState × Bool :=
  ({ s with
     trips := s.trips.filter (fun t => !(t.id == tripId))
     activeTrip :=
       match s.activeTrip with
       | some a => if a.id == tripId then none else some a
       | none => none },
   true)

/-- `avgDuration` of `getTripStats` (useTrips.ts lines 234–237): mean over
trips with `status === 'completed'` and truthy `duration`, `0` when there are
none. -/
def hookAvgDuration (trips : List Trip) : Int :=
  let completedTrips := trips.filter
    (fun t => t.status == TripStatus.completed && !(t.duration.getD 0 == 0))
  if 0 < completedTrips.length then
    jsRound (((completedTrips.foldl (fun sum t => sum + t.duration.getD 0) 0 : ℤ) : ℚ)
      / (completedTrips.length : ℚ))
  else 0

/-! ## The travelers route layer (the travelers CRUD handlers) -/

/-- `Traveler` from `src/lib/types.ts` (`ageGroup`/`relationship` enums are
carried as strings; the handlers only test them for truthiness). -/
structure Traveler where
  id : String
  name : String
  ageGroup : String
  relationship : String
  hasConsent : Bool
  createdAt : Int
deriving Repr, DecidableEq

/-- `TravelerForm` from `src/lib/types.ts`; `hasConsent` is `none` when the
key is absent from the body. -/
structure TravelerForm where
  name : String
  ageGroup : String
  relationship : String
  hasConsent : Option Bool := none
deriving Repr, DecidableEq

/-- The free-form `updates` object of the travelers PUT handler. -/
structure TravelerUpdates where
  name : Option String := none
  ageGroup : Option String := none
  relationship : Option String := none
  hasConsent : Option Bool := none
deriving Repr, DecidableEq

/-- Outcome of a travelers handler call. -/
inductive TravResult where
  | created (t : Traveler)             -- 201
  | ok (t : Traveler)                  -- 200
  | conflict (msg : String)            -- 400, duplicate name
  | validationErr (msg : String)       -- 400
  | notFound                           -- 404
deriving Repr, DecidableEq

/-- JavaScript `toLowerCase`, modelled as a per-character lowercase map over
the string (ASCII-equivalent to it on the data this app handles). -/
def jsToLower (s : String) : String := ⟨s.data.map Char.toLower⟩

/-- `POST` of the travelers route (lines 80–133 of the handler file): reject
missing fields, reject a case-insensitive duplicate of the *submitted* name,
then store the trimmed name. -/
def postTraveler (ts : List Traveler) (form : TravelerForm) (freshId : String)
    (now : Int) : List Traveler × TravResult :=
  if form.name = "" ∨ form.ageGroup = "" ∨ form.relationship = "" then
    (ts, .validationErr "Missing required fields: name, ageGroup, relationship")
  else if ts.any (fun t => jsToLower t.name == jsToLower form.name) then
    (ts, .conflict "A traveler with this name already exists")
  else
    let newTraveler : Traveler :=
      { id := freshId
        name := form.name.trim
        ageGroup := form.ageGroup
        relationship := form.relationship
        hasConsent := form.hasConsent.getD false
        createdAt := now }
    (ts ++ [newTraveler], .created newTraveler)

/-- The JS shallow merge `{...traveler, ...updates}` of the travelers PUT. -/
def mergeTraveler (t : Traveler) (u : TravelerUpdates) : Traveler :=
  { t with
    name := u.name.getD t.name
    ageGroup := u.ageGroup.getD t.ageGroup
    relationship := u.relationship.getD t.relationship
    hasConsent := u.hasConsent.getD t.hasConsent }

/-- The duplicate-name guard of the travelers PUT handler (lines 157–169 of
the handler file): only runs when a truthy `updates.name` is supplied, and
skips the record being updated. -/
def putNameConflict (ts : List Traveler) (travelerId : String)
    (u : TravelerUpdates) : Bool :=
  match u.name with
  | some n =>
    !(n == "") && ts.any (fun o => !(o.id == travelerId)
      && jsToLower o.name == jsToLower n)
  | none => false

/-- `PUT` of the travelers route (lines 135–191 of the handler file): 404 on
unknown id; when a truthy `updates.name` is supplied, reject a
case-insensitive duplicate among *other* records; then shallow-merge. -/
def putTraveler (ts : List Traveler) (travelerId : String) (u : TravelerUpdates) :
    List Traveler × TravResult :=
  if travelerId = "" then (ts, .validationErr "Missing travelerId")
  else
    match ts.find? (fun t => t.id == travelerId) with
    | none => (ts, .notFound)
    | some t =>
      if putNameConflict ts travelerId u then
        (ts, .conflict "A traveler with this name already exists")
      else
        let merged := mergeTraveler t u
        (setFirst (fun t => t.id == travelerId) (fun _ => merged) ts, .ok merged)

/-! ## Derived notions and concrete fixtures used by the theorems -/

/-- Ghost-log invariant of the route layer: the numbers handed out so far are
exactly `1, 2, ..., k` and the counter is `k + 1`. -/
def routeLogInv (s : RouteState) : Prop :=
  s.assigned = List.range' 1 s.assigned.length ∧
  s.tripIdCounter = s.assigned.length + 1

/-- Following the specification text for `completeTrip` (§4.1): the update
object with `status = completed`, the given `destination`, `endTime = now`,
`duration` computed as `round((now − startTime) / 60000)` minutes, and the
optional `satisfactionRating`. -/
def specCompletionUpdates (t : Trip) (destination : Location)
    (rating : Option Nat) (now : Int) : TripUpdates :=
  { status := some .completed
    destination := some destination
    endTime := some now
    duration := some (jsRound (((now - t.startTime : Int) : ℚ) / 60000))
    satisfactionRating := rating }

/-- Fixture: an origin location. -/
def loc0 : Location := { latitude := 8, longitude := 76 }

/-- Fixture: a destination location. -/
def loc1 : Location := { latitude := 9, longitude := 77 }

/-- Fixture: a well-formed create body. -/
def bodyA : CreateBody := { origin := some loc0, mode := "car", purpose := "work" }

/-- Fixture: an active trip as the route POST handler creates it. -/
def tripA : Trip :=
  { id := "A"
    tripNumber := 1
    status := .active
    origin := loc0
    startTime := 0
    mode := "car"
    purpose := "work"
    primaryTraveler := "current_user"
    accompanyingTravelers := []
    totalTravelers := 1
    createdAt := 0
    updatedAt := 0 }

/-- Fixture: hook-side create data. -/
def dataA : HookTripData :=
  { origin := loc0, mode := "car", purpose := "work", accompanyingTravelers := [] }

/-- Fixture for C2: at the hook layer, create trip `A` (assigned number 1,
the current maximum), delete it, create trip `B`. -/
def c2run : HookState :=
  let s0 : HookState := { trips := [] }
  let s1 := (createTripH s0 dataA 0 "A").1
  let s2 := (deleteTripH s1 "A").1
  (createTripH s2 dataA 10 "B").1

/-- Fixture for C3: a route state in which trip `B` (holding the maximal
number 2) has been deleted, leaving only trip `A` with number 1 while the
global counter already stands at 3. -/
def c3state : RouteState :=
  routeRun initRoute
    [ .post bodyA 0 "A",
      .put "A" { status := some .completed, destination := some loc1 } 1,
      .post bodyA 2 "B",
      .put "B" { status := some .completed, destination := some loc1 } 3,
      .del "B" ]

/-- Fixture for C4: a completion payload with a 7.5-minute end time. -/
def c4updates : TripUpdates :=
  { status := some .completed, destination := some loc1, endTime := some 450000 }

/-! ## Theorems for the claims -/

/-- Claim C7: for every tripId not present in the trip collection (and a
present, non-empty tripId key), the PUT handler answers 404 Not Found and
leaves the trip collection entirely unchanged. -/
theorem putTrip_unknown_id_not_found_and_unchanged
    (s : RouteState) (tripId : String) (u : TripUpdates) (now : Int)
    (hne : tripId ≠ "") (habs : ∀ t ∈ s.trips, t.id ≠ tripId) :
    putTrip s tripId u now = (s, RouteResult.notFound) := by
  have hfind : s.trips.find? (fun t => t.id == tripId) = none := by
    rw [List.find?_eq_none]
    intro x hx
    simpa using habs x hx
  unfold putTrip
  rw [if_neg hne, hfind]

/-- Witness for C7 at a concrete input. -/
theorem putTrip_unknown_id_not_found_and_unchanged_witness :
    putTrip { trips := [tripA], tripIdCounter := 2 } "B"
        { status := some .cancelled } 5
      = ({ trips := [tripA], tripIdCounter := 2 }, RouteResult.notFound) :=
  putTrip_unknown_id_not_found_and_unchanged _ _ _ _ (by decide) (by decide)

/-- Claim C10: the PUT handler computes a duration only when the payload
itself carries both `status: 'completed'` and a destination; a payload that
sets `status: 'completed'` without a destination leaves `duration` unset even
though the stored trip already has a destination. -/
theorem putTrip_no_payload_destination_skips_duration
    (s : RouteState) (tripId : String) (u : TripUpdates) (now : Int) (t : Trip)
    (hne : tripId ≠ "")
    (hfind : s.trips.find? (fun x => x.id == tripId) = some t)
    (hdur : t.duration = none) (hdest : t.destination.isSome)
    (hus : u.status = some TripStatus.completed)
    (hud : u.destination = none) (huD : u.duration = none) :
    (putTrip s tripId u now).2 = RouteResult.ok (applyPut t u now) ∧
    (applyPut t u now).duration = none := by
  constructor
  · unfold putTrip
    rw [if_neg hne, hfind]
  · simp [applyPut, mergeTrip, hud, huD, hdur]

/-- Witness for C10 at a concrete input: the stored trip has a destination
and no duration; completing without a payload destination stores no duration. -/
theorem putTrip_no_payload_destination_skips_duration_witness :
    (putTrip { trips := [{ tripA with destination := some loc1 }], tripIdCounter := 2 }
        "A" { status := some .completed } 450000).2
      = RouteResult.ok (applyPut { tripA with destination := some loc1 }
          { status := some .completed } 450000) ∧
    (applyPut { tripA with destination := some loc1 }
        { status := some .completed } 450000).duration = none :=
  putTrip_no_payload_destination_skips_duration _ _ _ _ _
    (by decide) (by decide) (by decide) (by decide) (by decide) (by decide) (by decide)

/-- Claim C4: when an update merge sets status to `completed` with a payload
destination present and no explicit duration supplied (and does not touch
`startTime`), the stored duration is `round((endTime_or_now − startTime) /
60000)` minutes with JS round-half-up rounding. -/
theorem putTrip_completion_computes_duration
    (s : RouteState) (tripId : String) (u : TripUpdates) (now : Int) (t : Trip)
    (hne : tripId ≠ "")
    (hfind : s.trips.find? (fun x => x.id == tripId) = some t)
    (hus : u.status = some TripStatus.completed)
    (hud : u.destination.isSome)
    (huD : u.duration = none)
    (hust : u.startTime = none) :
    (putTrip s tripId u now).2 = RouteResult.ok (applyPut t u now) ∧
    (applyPut t u now).duration =
      some (jsRound (((endTimeOrNow u now - t.startTime : Int) : ℚ) / 60000)) := by
  constructor
  · unfold putTrip
    rw [if_neg hne, hfind]
  · have hc : (TripStatus.completed == TripStatus.completed) = true := rfl
    simp [applyPut, mergeTrip, durationFalsy, hus, hud, huD, hust, hc]

/-- Witness for C4: a trip started at time 0 and completed with
`endTime = 450000` ms (7.5 minutes) stores `duration = 8` (round-half-up). -/
theorem putTrip_completion_computes_duration_witness :
    (putTrip { trips := [tripA], tripIdCounter := 2 } "A" c4updates 999999).2
      = RouteResult.ok (applyPut tripA c4updates 999999) ∧
    (applyPut tripA c4updates 999999).duration = some 8 := by
  have h := putTrip_completion_computes_duration
    { trips := [tripA], tripIdCounter := 2 } "A" c4updates 999999 tripA
    (by decide) (by decide) (by decide) (by decide) (by decide) (by decide)
  refine ⟨h.1, ?_⟩
  rw [h.2]
  norm_num [endTimeOrNow, c4updates, tripA, jsRound]

/-- Claim C9: the avgDuration statistics never divide by zero (the route
denominator is clamped to at least 1), and when no trip carries a duration
both the route-level and hook-level avgDuration are 0. -/
theorem avgDuration_zero_when_no_durations
    (trips : List Trip) (h : ∀ t ∈ trips, t.duration = none) :
    routeAvgDuration trips = 0 ∧ hookAvgDuration trips = 0 ∧
    1 ≤ max (trips.filter (fun t => !(t.duration.getD 0 == 0))).length 1 := by
  have hf1 : trips.filter (fun t => !(t.duration.getD 0 == 0)) = [] := by
    rw [List.filter_eq_nil_iff]
    intro t ht
    simp [h t ht]
  have hf2 : trips.filter
      (fun t => t.status == TripStatus.completed && !(t.duration.getD 0 == 0)) = [] := by
    rw [List.filter_eq_nil_iff]
    intro t ht
    simp [h t ht]
  refine ⟨?_, ?_, le_max_right _ _⟩
  · simp [routeAvgDuration, hf1]
    norm_num [jsRound]
  · simp [hookAvgDuration, hf2]

/-- Witness for C9: a singleton collection whose trip has no duration. -/
theorem avgDuration_zero_when_no_durations_witness :
    routeAvgDuration [tripA] = 0 ∧ hookAvgDuration [tripA] = 0 ∧
    1 ≤ max ([tripA].filter (fun t => !(t.duration.getD 0 == 0))).length 1 :=
  avgDuration_zero_when_no_durations [tripA] (by decide)

/-- Claim C6: adding a traveler whose submitted name matches an existing
traveler's name case-insensitively is rejected with a 400 conflict, while
updating a traveler's own name to a case-variant of its current value
succeeds, because the uniqueness check excludes the record being updated. -/
theorem traveler_name_uniqueness
    (ts : List Traveler) (form : TravelerForm) (freshId : String) (now : Int)
    (travelerId : String) (u : TravelerUpdates) (t : Traveler) (n : String) :
    (form.name ≠ "" → form.ageGroup ≠ "" → form.relationship ≠ "" →
      (∃ o ∈ ts, jsToLower o.name = jsToLower form.name) →
      postTraveler ts form freshId now
        = (ts, TravResult.conflict "A traveler with this name already exists")) ∧
    (travelerId ≠ "" →
      ts.find? (fun x => x.id == travelerId) = some t →
      (∀ o ∈ ts, o.id ≠ t.id → jsToLower o.name ≠ jsToLower t.name) →
      u.name = some n → n ≠ "" → jsToLower n = jsToLower t.name →
      putTraveler ts travelerId u
        = (setFirst (fun x => x.id == travelerId) (fun _ => mergeTraveler t u) ts,
           TravResult.ok (mergeTraveler t u))) := by
  constructor
  · intro h1 h2 h3 hdup
    have hval : ¬(form.name = "" ∨ form.ageGroup = "" ∨ form.relationship = "") := by
      push_neg
      exact ⟨h1, h2, h3⟩
    have hany : ts.any (fun o => jsToLower o.name == jsToLower form.name) = true := by
      rw [List.any_eq_true]
      obtain ⟨o, ho, he⟩ := hdup
      exact ⟨o, ho, by simpa using he⟩
    unfold postTraveler
    rw [if_neg hval, if_pos hany]
  · intro hne hfind huniq hn hnempty hcase
    have hid : t.id = travelerId := by
      have := List.find?_some hfind
      simpa using this
    have hany : (ts.any (fun o => !(o.id == travelerId)
        && jsToLower o.name == jsToLower n)) = false := by
      rw [List.any_eq_false]
      intro o ho
      simp only [Bool.and_eq_true, Bool.not_eq_true', beq_eq_false_iff_ne, ne_eq,
        beq_iff_eq, not_and]
      intro hoid
      have hne2 : jsToLower o.name ≠ jsToLower t.name :=
        huniq o ho (fun h2 => hoid (hid ▸ h2))
      simpa [hcase] using hne2
    have hconf : putNameConflict ts travelerId u = false := by
      simp only [putNameConflict, hn, hany, Bool.and_false]
    unfold putTraveler
    rw [if_neg hne, hfind]
    simp [hconf]

/-- Witness for C6: with traveler Asha registered, adding asha conflicts and
renaming Asha to ASHA through her own record succeeds. -/
theorem traveler_name_uniqueness_witness :
    (postTraveler
        [{ id := "1", name := "Asha", ageGroup := "adult", relationship := "friend",
           hasConsent := true, createdAt := 0 }]
        { name := "asha", ageGroup := "adult", relationship := "friend" } "2" 5
      = ([{ id := "1", name := "Asha", ageGroup := "adult", relationship := "friend",
            hasConsent := true, createdAt := 0 }],
         TravResult.conflict "A traveler with this name already exists")) ∧
    (putTraveler
        [{ id := "1", name := "Asha", ageGroup := "adult", relationship := "friend",
           hasConsent := true, createdAt := 0 }]
        "1" { name := some "ASHA" }
      = (setFirst (fun x => x.id == "1")
          (fun _ => mergeTraveler
            { id := "1", name := "Asha", ageGroup := "adult", relationship := "friend",
              hasConsent := true, createdAt := 0 } { name := some "ASHA" })
          [{ id := "1", name := "Asha", ageGroup := "adult", relationship := "friend",
             hasConsent := true, createdAt := 0 }],
         TravResult.ok (mergeTraveler
            { id := "1", name := "Asha", ageGroup := "adult", relationship := "friend",
              hasConsent := true, createdAt := 0 } { name := some "ASHA" }))) := by
  have h := traveler_name_uniqueness
    [{ id := "1", name := "Asha", ageGroup := "adult", relationship := "friend",
       hasConsent := true, createdAt := 0 }]
    { name := "asha", ageGroup := "adult", relationship := "friend" } "2" 5
    "1" { name := some "ASHA" }
    { id := "1", name := "Asha", ageGroup := "adult", relationship := "friend",
      hasConsent := true, createdAt := 0 } "ASHA"
  exact ⟨h.1 (by decide) (by decide) (by decide)
          ⟨_, List.mem_singleton_self _, by decide⟩,
         h.2 (by decide) (by decide) (by decide) rfl (by decide) (by decide)⟩

/-- Counterexample to C5 as stated: updating `accompanyingTravelers` from
`[]` to one traveler through the PUT merge leaves `totalTravelers` at 1, so
`totalTravelers = 1 + length accompanyingTravelers` fails after an update
that changes `accompanyingTravelers`. -/
theorem totalTravelers_invariant_counterexample :
    ((putTrip { trips := [tripA], tripIdCounter := 2 } "A"
        { accompanyingTravelers := some ["x"] } 1).1.trips.map
      (fun t => (t.totalTravelers, t.accompanyingTravelers.length))) = [(1, 1)] ∧
    (1 : Nat) ≠ 1 + 1 := by
  decide

/-- Claim C5 (amended): `totalTravelers = 1 + length accompanyingTravelers`
holds immediately after a successful create at both the route and the hook
layer; an update merge never recomputes `totalTravelers` — it keeps the
stored value whenever the payload does not supply `totalTravelers` itself,
even when the payload changes `accompanyingTravelers`. -/
theorem totalTravelers_after_create_and_update
    (s : RouteState) (b : CreateBody) (now : Int) (fid : String)
    (hs : HookState) (d : HookTripData) (hnow : Int) (hfid : String)
    (t : Trip) (u : TripUpdates) (unow : Int) :
    (b.origin.isSome → b.mode ≠ "" → b.purpose ≠ "" →
      s.trips.any isOwnedActive = false →
      ∃ nt, (postTrip s b now fid).2 = RouteResult.created nt ∧
        nt.totalTravelers = 1 + nt.accompanyingTravelers.length) ∧
    (hs.activeTrip = none →
      ∃ nt, (createTripH hs d hnow hfid).1.trips = hs.trips ++ [nt] ∧
        nt.totalTravelers = 1 + nt.accompanyingTravelers.length) ∧
    (u.totalTravelers = none →
      (mergeTrip t u unow).totalTravelers = t.totalTravelers ∧
      (applyPut t u unow).totalTravelers = t.totalTravelers) := by
  refine ⟨?_, ?_, ?_⟩
  · intro ho hm hp hact
    obtain ⟨o, ho⟩ := Option.isSome_iff_exists.mp ho
    unfold postTrip
    rw [ho]
    dsimp only
    rw [if_neg (by push_neg; exact ⟨hm, hp⟩), hact, if_neg (by simp)]
    exact ⟨_, rfl, by cases b.accompanyingTravelers <;> simp⟩
  · intro hact
    unfold createTripH
    rw [hact]
    exact ⟨_, rfl, by simp⟩
  · intro hu
    constructor
    · simp [mergeTrip, hu]
    · simp [applyPut, mergeTrip, hu]
      split <;> rfl

/-- Witness for the amended C5 at concrete inputs. -/
theorem totalTravelers_after_create_and_update_witness :
    (∃ nt, (postTrip initRoute bodyA 0 "A").2 = RouteResult.created nt ∧
      nt.totalTravelers = 1 + nt.accompanyingTravelers.length) ∧
    (∃ nt, (createTripH { trips := [] } dataA 0 "A").1.trips = [] ++ [nt] ∧
      nt.totalTravelers = 1 + nt.accompanyingTravelers.length) ∧
    ((mergeTrip tripA { accompanyingTravelers := some ["x"] } 1).totalTravelers
        = tripA.totalTravelers ∧
      (applyPut tripA { accompanyingTravelers := some ["x"] } 1).totalTravelers
        = tripA.totalTravelers) := by
  have h := totalTravelers_after_create_and_update initRoute bodyA 0 "A"
    { trips := [] } dataA 0 "A" tripA { accompanyingTravelers := some ["x"] } 1
  exact ⟨h.1 (by decide) (by decide) (by decide) (by decide),
         h.2.1 rfl, h.2.2 rfl⟩

/-- Helper: the seed of a left max-fold bounds the result from below. -/
theorem le_foldl_max (l : List Nat) (a : Nat) : a ≤ l.foldl Nat.max a := by
  induction l generalizing a with
  | nil => exact le_refl a
  | cons x xs ih => exact le_trans (Nat.le_max_left a x) (ih (Nat.max a x))

/-- Helper: every member of a list bounds its left max-fold from below. -/
theorem mem_le_foldl_max (l : List Nat) (a x : Nat) (hx : x ∈ l) :
    x ≤ l.foldl Nat.max a := by
  induction l generalizing a with
  | nil => cases hx
  | cons y ys ih =>
    rcases List.mem_cons.mp hx with h | h
    · subst h
      exact le_trans (Nat.le_max_right a x) (le_foldl_max ys (Nat.max a x))
    · exact ih (Nat.max a y) h

/-- Helper: a left max-fold returns its seed or a member of the list. -/
theorem foldl_max_mem (l : List Nat) (a : Nat) :
    l.foldl Nat.max a = a ∨ l.foldl Nat.max a ∈ l := by
  induction l generalizing a with
  | nil => exact Or.inl rfl
  | cons x xs ih =>
    rcases ih (Nat.max a x) with h | h
    · rcases Nat.le_total a x with h2 | h2
      · have h3 : Nat.max a x = x := Nat.max_eq_right h2
        exact Or.inr (by rw [List.foldl_cons, h, h3]; exact List.mem_cons_self x xs)
      · have h3 : Nat.max a x = a := Nat.max_eq_left h2
        exact Or.inl (by rw [List.foldl_cons, h, h3])
    · exact Or.inr (List.mem_cons_of_mem x (by rw [List.foldl_cons]; exact h))

/-- Helper: over a nonempty list the zero-seeded max-fold is a member. -/
theorem foldl_max_zero_mem (l : List Nat) (h : l ≠ []) : l.foldl Nat.max 0 ∈ l := by
  cases l with
  | nil => exact absurd rfl h
  | cons x xs =>
    have h0 : Nat.max 0 x = x := Nat.max_eq_right (Nat.zero_le x)
    rw [List.foldl_cons, h0]
    rcases foldl_max_mem xs x with h1 | h1
    · rw [h1]
      exact List.mem_cons_self x xs
    · exact List.mem_cons_of_mem x h1

/-- Counterexample to C3 as stated: in a route state where the trip holding
the maximal number 2 was deleted (only number 1 remains) the next successful
create assigns number 3 from the global counter, not max + 1 = 2. -/
theorem route_create_number_not_max_plus_one :
    ((postTrip c3state bodyA 9 "C").1.trips.map Trip.tripNumber) = [1, 3] ∧
    generateTripNumber c3state.trips = 2 ∧ (3 : Nat) ≠ 2 := by
  decide

/-- Claim C3 (amended): the hook createTrip assigns
`max(existing tripNumbers) + 1`, or 1 when no trip exists: the new number is
1 on an empty collection, exceeds every existing number, and on a nonempty
collection is exactly one more than some existing number; the route POST
instead assigns from a global counter, which can differ from max + 1 after a
deletion. -/
theorem hook_create_assigns_max_plus_one (s : HookState) (d : HookTripData)
    (now : Int) (fid : String) (h : s.activeTrip = none) :
    ∃ nt, (createTripH s d now fid).1.trips = s.trips ++ [nt] ∧
      (s.trips = [] → nt.tripNumber = 1) ∧
      (∀ t ∈ s.trips, t.tripNumber < nt.tripNumber) ∧
      (s.trips ≠ [] → ∃ t ∈ s.trips, nt.tripNumber = t.tripNumber + 1) := by
  have hcond : s.activeTrip.isSome = false := by rw [h]; rfl
  unfold createTripH
  simp only [hcond, Bool.false_eq_true, if_false]
  refine ⟨_, rfl, ?_, ?_, ?_⟩
  · intro he
    simp [generateTripNumber, he]
  · intro t ht
    have hne : ¬ s.trips.isEmpty = true := by
      simp only [List.isEmpty_iff]
      exact List.ne_nil_of_mem ht
    simp only [generateTripNumber, if_neg hne]
    exact Nat.lt_succ_of_le
      (mem_le_foldl_max _ 0 _ (List.mem_map_of_mem Trip.tripNumber ht))
  · intro hne
    have hne2 : s.trips.map Trip.tripNumber ≠ [] := by simpa using hne
    obtain ⟨t, ht, he⟩ := List.mem_map.mp (foldl_max_zero_mem _ hne2)
    refine ⟨t, ht, ?_⟩
    have hne3 : ¬ s.trips.isEmpty = true := by simpa [List.isEmpty_iff] using hne
    simp only [generateTripNumber, if_neg hne3, he]

/-- Witness for the amended C3: with trips numbered 1 and 5 present and
completed, the next hook create gets number 6. -/
theorem hook_create_assigns_max_plus_one_witness :
    ∃ nt, (createTripH
        { trips := [{ tripA with status := .completed },
                    { tripA with id := "B", tripNumber := 5, status := .completed }] }
        dataA 9 "C").1.trips
      = [{ tripA with status := .completed },
         { tripA with id := "B", tripNumber := 5, status := .completed }] ++ [nt] ∧
      ([{ tripA with status := .completed },
        { tripA with id := "B", tripNumber := 5, status := .completed }]
          = ([] : List Trip) → nt.tripNumber = 1) ∧
      (∀ t ∈ [{ tripA with status := .completed },
              { tripA with id := "B", tripNumber := 5, status := .completed }],
        t.tripNumber < nt.tripNumber) ∧
      ([{ tripA with status := .completed },
        { tripA with id := "B", tripNumber := 5, status := .completed }]
          ≠ ([] : List Trip) →
        ∃ t ∈ [{ tripA with status := .completed },
               { tripA with id := "B", tripNumber := 5, status := .completed }],
          nt.tripNumber = t.tripNumber + 1) :=
  hook_create_assigns_max_plus_one
    { trips := [{ tripA with status := .completed },
                { tripA with id := "B", tripNumber := 5, status := .completed }] }
    dataA 9 "C" rfl

/-- Counterexample to C2 as stated: at the hook layer the createTrip and
deleteTrip sequence create, delete (the trip holding the maximum number),
create assigns the numbers 1, 1 — the deleted maximum is reused, so the
assigned numbers are neither strictly increasing nor free of repeats. -/
theorem hook_trip_number_reused_after_delete :
    c2run.assigned = [1, 1] ∧
    ¬ List.Pairwise (fun a b => a < b) c2run.assigned ∧
    ¬ c2run.assigned.Nodup := by
  refine ⟨by decide, by decide, by decide⟩

/-- Helper: the ghost-log invariant holds in the initial route state. -/
theorem routeLogInv_init : routeLogInv initRoute :=
  ⟨rfl, rfl⟩

/-- Helper: every route call preserves the ghost-log invariant. -/
theorem routeLogInv_step (s : RouteState) (op : RouteOp) (h : routeLogInv s) :
    routeLogInv (routeStep s op) := by
  obtain ⟨h1, h2⟩ := h
  cases op with
  | post b now fid =>
    show routeLogInv (postTrip s b now fid).1
    unfold postTrip
    cases b.origin with
    | none => exact ⟨h1, h2⟩
    | some o =>
      dsimp only
      split
      · exact ⟨h1, h2⟩
      · split
        · exact ⟨h1, h2⟩
        · refine ⟨?_, ?_⟩
          · show s.assigned ++ [s.tripIdCounter]
                = List.range' 1 (s.assigned ++ [s.tripIdCounter]).length
            have hk : (s.assigned ++ [s.tripIdCounter]).length = s.assigned.length + 1 := by
              rw [List.length_append, List.length_singleton]
            rw [hk, h2, List.range'_concat]
            have h3 : 1 + 1 * s.assigned.length = s.assigned.length + 1 := by omega
            rw [h3]
            congr 1
          · show s.tripIdCounter + 1 = (s.assigned ++ [s.tripIdCounter]).length + 1
            rw [List.length_append, List.length_singleton, h2]
  | put tid u now =>
    show routeLogInv (putTrip s tid u now).1
    unfold putTrip
    split
    · exact ⟨h1, h2⟩
    · split
      · exact ⟨h1, h2⟩
      · exact ⟨h1, h2⟩
  | del tid =>
    show routeLogInv (deleteTrip s tid).1
    unfold deleteTrip
    split
    · exact ⟨h1, h2⟩
    · split
      · exact ⟨h1, h2⟩
      · exact ⟨h1, h2⟩

/-- Helper: the ghost-log invariant holds after any sequence of route calls. -/
theorem routeLogInv_run (ops : List RouteOp) :
    ∀ s, routeLogInv s → routeLogInv (routeRun s ops) := by
  induction ops with
  | nil => exact fun s h => h
  | cons op rest ih =>
    intro s h
    exact ih (routeStep s op) (routeLogInv_step s op h)

/-- Claim C2 (amended): at the route layer the trip numbers assigned by
successive successful creates are exactly `1, 2, ..., k` — strictly
increasing from 1 with no repeats, whatever deletions happen in between; at
the hook layer (max + 1 assignment) a deleted maximal number is reused. -/
theorem route_trip_numbers_strictly_increasing (ops : List RouteOp) :
    (routeRun initRoute ops).assigned
      = List.range' 1 (routeRun initRoute ops).assigned.length ∧
    List.Pairwise (fun a b => a < b) (routeRun initRoute ops).assigned ∧
    (routeRun initRoute ops).assigned.Nodup := by
  have h := (routeLogInv_run ops initRoute routeLogInv_init).1
  refine ⟨h, ?_, ?_⟩
  · rw [h]
    exact List.pairwise_lt_range' 1 (routeRun initRoute ops).assigned.length 1 Nat.one_pos
  · rw [h]
    exact List.nodup_range' 1 (routeRun initRoute ops).assigned.length 1 Nat.one_pos

/-- Claim C8: for an existing trip, completeTrip yields the same stored trip
collection and the same success result as updateTrip with the update object
the spec prescribes (status completed, destination, endTime now, computed
duration, rating); for a missing trip it fails and changes nothing. -/
theorem completeTrip_refines_updateTrip (s : HookState) (tripId : String)
    (dest : Location) (rating : Option Nat) (now : Int) :
    (∀ t, s.trips.find? (fun x => x.id == tripId) = some t →
      (completeTripH s tripId dest rating now).1.trips
          = (updateTripH s tripId (specCompletionUpdates t dest rating now) now).1.trips ∧
      (completeTripH s tripId dest rating now).2
          = (updateTripH s tripId (specCompletionUpdates t dest rating now) now).2) ∧
    (s.trips.find? (fun x => x.id == tripId) = none →
      completeTripH s tripId dest rating now = (s, false)) := by
  constructor
  · intro t hfind
    have hspec : completeUpdates t dest rating now
        = specCompletionUpdates t dest rating now := rfl
    unfold completeTripH
    rw [hfind]
    dsimp only
    rw [hspec]
    cases hr : (updateTripH s tripId (specCompletionUpdates t dest rating now) now).2 with
    | false => simp [hr]
    | true =>
      simp only [hr, if_true]
      cases ha : s.activeTrip with
      | none => exact ⟨rfl, hr⟩
      | some a =>
        by_cases hid : (a.id == tripId) = true
        · simp [hid, hr]
        · simp only [Bool.not_eq_true] at hid
          simp [hid, hr]
  · intro hnone
    unfold completeTripH
    rw [hnone]

/-- Witness for C8: completing the single stored active trip agrees with the
spec-prescribed updateTrip call on that trip. -/
theorem completeTrip_refines_updateTrip_witness :
    (completeTripH { trips := [tripA] } "A" loc1 (some 5) 450000).1.trips
        = (updateTripH { trips := [tripA] } "A"
            (specCompletionUpdates tripA loc1 (some 5) 450000) 450000).1.trips ∧
    (completeTripH { trips := [tripA] } "A" loc1 (some 5) 450000).2
        = (updateTripH { trips := [tripA] } "A"
            (specCompletionUpdates tripA loc1 (some 5) 450000) 450000).2 :=
  (completeTrip_refines_updateTrip { trips := [tripA] } "A" loc1 (some 5) 450000).1
    tripA (by decide)

end Natpac
